import Mathlib

/-!
# Verification of the predictor component reconciler

A shallow embedding of `pkg/controller/v1beta1/inferenceservice/components/predictor.go`
(the `Predictor.Reconcile` orchestrator and its helpers `addLoggerAnnotations`,
`addBatcherAnnotations`, `addLoggerContainerPort`, `addBatcherContainerPort`)
and of the multi-model `ConfigMapReconciler.Reconcile`, together with proofs of
the spec's testable properties.

Go maps (annotations, labels, per-component status) are modelled as
association lists with a deterministic insert-or-replace `set` operation;
Go pointers that may be `nil` become `Option`; the delegate reconciler,
the owner-reference call and the configmap create call are modelled as
function parameters (they are external collaborators performing network I/O).
-/

set_option autoImplicit false

namespace KFServing

universe u

/-! ## Association-list maps (model of Go `map[string]string` etc.) -/

/-- Model of a Go string-keyed map as an association list. -/
abbrev KVMap (α : Type u) : Type u := List (String × α)

namespace KVMap

variable {α : Type u}

/-- Map lookup: first entry with the given key. -/
def get : KVMap α → String → Option α
  | [], _ => none
  | p :: rest, k => if p.1 = k then some p.2 else get rest k

/-- Drop every entry with the given key (helper for `set`). -/
def dropKey : KVMap α → String → KVMap α
  | [], _ => []
  | p :: rest, k => if p.1 = k then dropKey rest k else p :: dropKey rest k

/-- Map update `m[k] = v`: deterministic insert-or-replace
(any association list with the right lookups models the unordered Go map). -/
def set (m : KVMap α) (k : String) (v : α) : KVMap α :=
  (k, v) :: dropKey m k

/-- Keep only entries whose key satisfies the predicate
(model of `utils.Filter`, whose own source is not part of this fragment). -/
def filterKeys : KVMap α → (String → Bool) → KVMap α
  | [], _ => []
  | p :: rest, pred => if pred p.1 then p :: filterKeys rest pred else filterKeys rest pred

/-- Merge two maps, entries of the second winning on key clashes
(model of `utils.Union`, whose own source is not part of this fragment). -/
def union (m1 m2 : KVMap α) : KVMap α :=
  m2.foldl (fun acc p => set acc p.1 p.2) m1

theorem get_dropKey (m : KVMap α) (k k' : String) (h : k' ≠ k) :
    get (dropKey m k) k' = get m k' := by
  induction m with
  | nil => rfl
  | cons p rest ih =>
    by_cases hp : p.1 = k
    · simp [dropKey, get, hp, ih, Ne.symm h]
    · simp only [dropKey, hp, if_false]
      by_cases hc : p.1 = k' <;> simp [get, hc, ih]

theorem get_set (m : KVMap α) (k : String) (v : α) (k' : String) :
    get (set m k v) k' = if k' = k then some v else get m k' := by
  by_cases h : k' = k
  · subst h; simp [get, set]
  · simp [get, set, get_dropKey m k k' h, h, Ne.symm h]

theorem get_filterKeys (m : KVMap α) (pred : String → Bool) (k : String) :
    get (filterKeys m pred) k = if pred k then get m k else none := by
  induction m with
  | nil => cases hp : pred k <;> simp [get, filterKeys, hp]
  | cons p rest ih =>
    cases hp : pred p.1 with
    | true =>
      have hstep : filterKeys (p :: rest) pred = p :: filterKeys rest pred := by
        simp [filterKeys, hp]
      rw [hstep]
      by_cases hk : p.1 = k
      · subst hk; simp [get, hp]
      · simp [get, hk, ih]
    | false =>
      have hstep : filterKeys (p :: rest) pred = filterKeys rest pred := by
        simp [filterKeys, hp]
      rw [hstep, ih]
      by_cases hk : p.1 = k
      · subst hk; rw [hp]; simp
      · by_cases hpk : pred k = true <;> simp [hpk, get, hk]

end KVMap

/-! ## Constants

The `constants` package is not part of this source fragment; its values are
modelled from the spec (§6 lists the annotation-key wire contract and the two
well-known ports; §8 requires the keys and ports to be distinct).  Only the
distinctness of these strings matters for the proofs below, not their exact
values. -/

/-- Modelled from the spec: the internal annotation prefix shared by the
annotation-key constants of the `constants` package (not under `src/`). -/
def InternalAnnotationsDomain : String := "internal.serving.kubeflow.org"

/-- Modelled from the spec: the storage-source-URI annotation key
(`constants.StorageInitializerSourceUriInternalAnnotationKey`). -/
def StorageUriAnnotationKey : String :=
  "internal.serving.kubeflow.org/storage-initializer-sourceuri"

/-- Modelled from the spec: the logging-enabled annotation key
(`constants.LoggerInternalAnnotationKey`). -/
def LoggerInternalAnnotationKey : String := "internal.serving.kubeflow.org/logger"

/-- Modelled from the spec: the logging sink-URL annotation key
(`constants.LoggerSinkUrlInternalAnnotationKey`). -/
def LoggerSinkUrlInternalAnnotationKey : String :=
  "internal.serving.kubeflow.org/logger-sink-url"

/-- Modelled from the spec: the logging delivery-mode annotation key
(`constants.LoggerModeInternalAnnotationKey`). -/
def LoggerModeInternalAnnotationKey : String :=
  "internal.serving.kubeflow.org/logger-mode"

/-- Modelled from the spec: the batching-enabled annotation key
(`constants.BatcherInternalAnnotationKey`). -/
def BatcherInternalAnnotationKey : String := "internal.serving.kubeflow.org/batcher"

/-- Modelled from the spec: the batching max-batch-size annotation key
(`constants.BatcherMaxBatchSizeInternalAnnotationKey`). -/
def BatcherMaxBatchSizeInternalAnnotationKey : String :=
  "internal.serving.kubeflow.org/batcher-max-batchsize"

/-- Modelled from the spec: the batching max-latency annotation key
(`constants.BatcherMaxLatencyInternalAnnotationKey`). -/
def BatcherMaxLatencyInternalAnnotationKey : String :=
  "internal.serving.kubeflow.org/batcher-max-latency"

/-- Modelled from the spec: the batching timeout annotation key
(`constants.BatcherTimeoutInternalAnnotationKey`). -/
def BatcherTimeoutInternalAnnotationKey : String :=
  "internal.serving.kubeflow.org/batcher-timeout"

/-- Modelled from the spec: the disallow-list of parent annotations excluded
from the synthesized child metadata (`constants.ServiceAnnotationDisallowedList`,
not under `src/`; the spec gives the filtering contract but not the contents,
so representative platform-managed keys are used). -/
def ServiceAnnotationDisallowedList : List String :=
  ["kubectl.kubernetes.io/last-applied-configuration",
   "autoscaling.knative.dev/minScale",
   "autoscaling.knative.dev/maxScale"]

/-- The annotation keys that the synthesizer itself may write after the
filtering step (storage source plus the logger and batcher directives). -/
def InjectedAnnotationKeys : List String :=
  [StorageUriAnnotationKey,
   LoggerInternalAnnotationKey,
   LoggerSinkUrlInternalAnnotationKey,
   LoggerModeInternalAnnotationKey,
   BatcherInternalAnnotationKey,
   BatcherMaxBatchSizeInternalAnnotationKey,
   BatcherMaxLatencyInternalAnnotationKey,
   BatcherTimeoutInternalAnnotationKey]

/-- Modelled from the spec: `constants.InferenceServicePodLabelKey`
(the pod-grouping system label). -/
def InferenceServicePodLabelKey : String := "serving.kubeflow.org/inferenceservice"

/-- Modelled from the spec: `constants.KServiceComponentLabel`
(the component-kind system label). -/
def KServiceComponentLabel : String := "component"

/-- Modelled from the spec: `v1beta1.PredictorComponent`, the component kind
of the predictor (`v1beta1` API types are not under `src/`). -/
def PredictorComponent : String := "predictor"

/-- Modelled from the spec: `constants.InferenceServiceDefaultLoggerPort`
(a well-known port, stored as a decimal string in the constants package). -/
def InferenceServiceDefaultLoggerPort : String := "8080"

/-- Modelled from the spec: `constants.InferenceServiceDefaultBatcherPort`
(a distinct well-known port, stored as a decimal string). -/
def InferenceServiceDefaultBatcherPort : String := "9082"

/-- Model of Go `strconv.Atoi` as used here: the error is discarded by the
callers (`port, _ := strconv.Atoi(...)`), and on error Atoi returns 0. -/
def atoi (s : String) : Int := (s.toInt?).getD 0

/-! ## Data model (`v1` / `metav1` / `v1beta1` types used by the fragment) -/

/-- Model of `v1.ContainerPort`: the code only writes the `ContainerPort`
number (the other fields keep their zero values). -/
structure ContainerPort where
  name : String := ""
  containerPort : Int
deriving DecidableEq, Repr

/-- Model of `v1.Container` restricted to the fields this fragment reads or
writes; `ports : []` models a nil/empty `Ports` slice. -/
structure Container where
  name : String := ""
  image : String := ""
  args : List String := []
  env : KVMap String := []
  ports : List ContainerPort := []
deriving DecidableEq, Repr

/-- Model of `v1.PodSpec` restricted to the fields relevant here: the
container list plus representative pod-level fields (volumes by name, the
service account) that the synthesizer must preserve verbatim. -/
structure PodSpec where
  containers : List Container := []
  volumes : List String := []
  serviceAccountName : String := ""
deriving DecidableEq, Repr

/-- Model of `v1beta1.CustomPredictor`, which embeds a `v1.PodTemplateSpec`;
only its `Spec` is read or written by this fragment. -/
structure CustomPredictor where
  spec : PodSpec
deriving DecidableEq, Repr

/-- Model of `metav1.ObjectMeta` restricted to the fields used here. -/
structure ObjectMeta where
  name : String := ""
  ns : String := ""
  labels : KVMap String := []
  annotations : KVMap String := []
deriving DecidableEq, Repr

/-- Model of `v1beta1.LoggerSpec`: an optional sink URL and a delivery mode
(`LoggerType` is a string-typed enum: request, response or both). -/
structure LoggerSpec where
  url : Option String := none
  mode : String
deriving DecidableEq, Repr

/-- Model of `v1beta1.Batcher`: three optional integers
(`*int` fields `MaxBatchSize`, `MaxLatency`, `Timeout`). -/
structure Batcher where
  maxBatchSize : Option Int := none
  maxLatency : Option Int := none
  timeout : Option Int := none
deriving DecidableEq, Repr

/-- Model of `v1beta1.ComponentExtensionSpec` (resource/scaling extensions,
threaded through to the delegate and the container builder unchanged). -/
structure ComponentExtensionSpec where
  minReplicas : Option Int := none
  maxReplicas : Option Int := none
  containerConcurrency : Option Int := none
deriving DecidableEq, Repr

/-- Model of `v1beta1.InferenceServicesConfig` (global configuration,
threaded through to the container builder unchanged). -/
structure InferenceServicesConfig where
  predictorsConfig : String := ""
deriving DecidableEq, Repr

/-- Modelled from the spec: the active predictor implementation variant, the
uniform capability interface `{GetStorageUri, GetContainer}` of the `v1beta1`
API types (not under `src/`).  §4.4: `GetContainer` is a pure function of the
parent object-metadata, the extension configuration and the global
configuration; `GetStorageUri` is an optional storage source URI. -/
structure PredictorImplementation where
  storageUri : Option String
  getContainer : ObjectMeta → ComponentExtensionSpec → InferenceServicesConfig → Container

/-- Model of `v1beta1.PredictorSpec`: the optional custom pod-template
override, the optional logger and batcher sub-specifications, the embedded
`ComponentExtensionSpec`, and the resolved implementation variant
(`GetImplementation`, modelled from the spec per §9: resolve the active
tagged variant once and expose its capability interface). -/
structure PredictorSpec where
  custom : Option CustomPredictor := none
  logger : Option LoggerSpec := none
  batcher : Option Batcher := none
  ext : ComponentExtensionSpec := {}
  implementation : PredictorImplementation

/-- Model of `v1beta1.PredictorSpec.GetImplementation` (modelled from the
spec, §9): returns the resolved active implementation variant. -/
def PredictorSpec.GetImplementation (p : PredictorSpec) : PredictorImplementation :=
  p.implementation

/-- Model of `v1beta1.PredictorSpec.GetExtensions`: the embedded
`ComponentExtensionSpec`. -/
def PredictorSpec.GetExtensions (p : PredictorSpec) : ComponentExtensionSpec :=
  p.ext

/-- Model of `v1beta1.ComponentStatusSpec`: the delegate-written per-component
observed state (readiness, URL).  The empty value is the Go zero value. -/
structure ComponentStatusSpec where
  url : Option String := none
  ready : Bool := false
deriving DecidableEq, Repr

/-- Model of `v1beta1.InferenceServiceStatus` restricted to the per-component
map `Components` used by this fragment. -/
structure InferenceServiceStatus where
  components : KVMap ComponentStatusSpec := []
deriving DecidableEq, Repr

/-- Go map read `isvc.Status.Components[component]`: a missing key yields the
zero value of `ComponentStatusSpec`. -/
def InferenceServiceStatus.componentRead (s : InferenceServiceStatus)
    (component : String) : ComponentStatusSpec :=
  (KVMap.get s.components component).getD {}

/-- Model of `v1beta1.InferenceServiceStatus.PropagateStatus` (modelled from
the spec: overwrite the parent's per-component status entry with the
delegate's returned status snapshot; the `v1beta1` status code is not under
`src/`). -/
def InferenceServiceStatus.propagateStatus (s : InferenceServiceStatus)
    (component : String) (cs : ComponentStatusSpec) : InferenceServiceStatus :=
  { components := KVMap.set s.components component cs }

/-- Model of `v1beta1.InferenceService`: metadata, the predictor spec
(`Spec.Predictor` — the only part of `Spec` this fragment uses) and status. -/
structure InferenceService where
  metadata : ObjectMeta
  predictor : PredictorSpec
  status : InferenceServiceStatus

/-! ## The embedded source functions (`predictor.go`) -/

/-- Embedding of `addLoggerAnnotations` (predictor.go:117-127).  The Go
function mutates the annotation map in place and returns a presence flag;
here it returns the flag paired with the updated map. -/
def addLoggerAnnotations (logger : Option LoggerSpec) (annotations : KVMap String) :
    Bool × KVMap String :=
  match logger with
  | some lg =>
    let a1 := KVMap.set annotations LoggerInternalAnnotationKey "true"
    let a2 := match lg.url with
      | some u => KVMap.set a1 LoggerSinkUrlInternalAnnotationKey u
      | none => a1
    let a3 := KVMap.set a2 LoggerModeInternalAnnotationKey lg.mode
    (true, a3)
  | none => (false, annotations)

/-- Embedding of `addBatcherAnnotations` (predictor.go:142-161): sets the
batching-enabled flag and serializes each present integer with
`strconv.Itoa` (decimal, modelled by `toString` on `Int`). -/
def addBatcherAnnotations (batcher : Option Batcher) (annotations : KVMap String) :
    Bool × KVMap String :=
  match batcher with
  | some b =>
    let a1 := KVMap.set annotations BatcherInternalAnnotationKey "true"
    let a2 := match b.maxBatchSize with
      | some n => KVMap.set a1 BatcherMaxBatchSizeInternalAnnotationKey (toString n)
      | none => a1
    let a3 := match b.maxLatency with
      | some n => KVMap.set a2 BatcherMaxLatencyInternalAnnotationKey (toString n)
      | none => a2
    let a4 := match b.timeout with
      | some n => KVMap.set a3 BatcherTimeoutInternalAnnotationKey (toString n)
      | none => a3
    (true, a4)
  | none => (false, annotations)

/-- Embedding of `addLoggerContainerPort` (predictor.go:129-140): if the
container declares no ports, declare exactly one with the well-known logger
port.  The Go nil-pointer guard on the container is a no-op here (the caller
always passes a valid container); a nil `Ports` slice and an empty one are
both the empty list. -/
def addLoggerContainerPort (container : Container) : Container :=
  if container.ports = [] then
    { container with ports := [{ containerPort := atoi InferenceServiceDefaultLoggerPort }] }
  else container

/-- Embedding of `addBatcherContainerPort` (predictor.go:163-174),
identical in shape to `addLoggerContainerPort` with the batcher port. -/
def addBatcherContainerPort (container : Container) : Container :=
  if container.ports = [] then
    { container with ports := [{ containerPort := atoi InferenceServiceDefaultBatcherPort }] }
  else container

/-- The conditional port patching applied to `Custom.Spec.Containers[0]` in
`Predictor.Reconcile` (predictor.go:94-101): logger port first, then batcher
port, each only when the corresponding feature flag is set. -/
def patchPorts (hasInferenceLogging hasInferenceBatcher : Bool) (c : Container) : Container :=
  let c1 := if hasInferenceLogging then addLoggerContainerPort c else c
  if hasInferenceBatcher then addBatcherContainerPort c1 else c1

/-- The desired child-resource definition handed to the delegate reconciler:
the synthesized object metadata and the pod spec
(`&isvc.Spec.Predictor.Custom.Spec`). -/
structure Desired where
  objectMeta : ObjectMeta
  podSpec : PodSpec

/-- The annotation-filtering step of `Predictor.Reconcile` (predictor.go:57-59):
`utils.Filter(isvc.Annotations, key => !utils.Includes(disallowedList, key))`. -/
def filteredAnnotations (meta : ObjectMeta) : KVMap String :=
  KVMap.filterKeys meta.annotations
    (fun key => !(ServiceAnnotationDisallowedList.contains key))

/-- The storage-source step of `Predictor.Reconcile` (predictor.go:62-64):
when the implementation exposes a storage URI, set the storage-source
annotation on the filtered map. -/
def baseAnnotations (meta : ObjectMeta) (pspec : PredictorSpec) : KVMap String :=
  match pspec.GetImplementation.storageUri with
  | some sourceURI => KVMap.set (filteredAnnotations meta) StorageUriAnnotationKey sourceURI
  | none => filteredAnnotations meta

/-- The logger annotation step of `Predictor.Reconcile` (predictor.go:66):
presence flag and updated map. -/
def loggerStep (meta : ObjectMeta) (pspec : PredictorSpec) : Bool × KVMap String :=
  addLoggerAnnotations pspec.logger (baseAnnotations meta pspec)

/-- The batcher annotation step of `Predictor.Reconcile` (predictor.go:67):
presence flag and updated map (runs on the logger step's output). -/
def batcherStep (meta : ObjectMeta) (pspec : PredictorSpec) : Bool × KVMap String :=
  addBatcherAnnotations pspec.batcher (loggerStep meta pspec).2

/-- The annotation map carried by the synthesized child metadata. -/
def synthAnnotations (meta : ObjectMeta) (pspec : PredictorSpec) : KVMap String :=
  (batcherStep meta pspec).2

/-- The synthesized child object metadata of `Predictor.Reconcile`
(predictor.go:69-77): name = parent + "-predictor", parent namespace, parent
labels unioned with the two system labels, synthesized annotations. -/
def synthObjectMeta (meta : ObjectMeta) (pspec : PredictorSpec) : ObjectMeta :=
  { name := meta.name ++ "-" ++ PredictorComponent
    ns := meta.ns
    labels := KVMap.union meta.labels
      [(InferenceServicePodLabelKey, meta.name),
       (KServiceComponentLabel, PredictorComponent)]
    annotations := synthAnnotations meta pspec }

/-- The freshly built predictor container (predictor.go:79/87):
`predictor.GetContainer(isvc.ObjectMeta, isvc.Spec.Predictor.GetExtensions(), config)`. -/
def builtContainer (cfg : InferenceServicesConfig) (meta : ObjectMeta)
    (pspec : PredictorSpec) : Container :=
  pspec.GetImplementation.getContainer meta pspec.GetExtensions cfg

/-- The container stored at `Custom.Spec.Containers[0]` after the pass: the
freshly built container with the conditional sidecar-port patches applied. -/
def finalContainer (cfg : InferenceServicesConfig) (meta : ObjectMeta)
    (pspec : PredictorSpec) : Container :=
  patchPorts (loggerStep meta pspec).1 (batcherStep meta pspec).1
    (builtContainer cfg meta pspec)

/-- Embedding of the synthesis phase of `Predictor.Reconcile`
(predictor.go:56-101): filter the parent annotations against the
disallow-list, add the storage-source annotation, run the logger and batcher
annotation steps, build the child object metadata, build the container and
install it into the custom pod template (creating a single-container template
when the override is absent, otherwise overwriting its first container), then
patch the sidecar ports.  Returns the updated predictor spec (the Go code
mutates `isvc.Spec.Predictor.Custom` in place) and the desired child
definition; `none` models the index-out-of-range panic of
`isvc.Spec.Predictor.Custom.Spec.Containers[0] = *container` when the
pre-existing override has an empty container list. -/
def synth (cfg : InferenceServicesConfig) (meta : ObjectMeta) (pspec : PredictorSpec) :
    Option (PredictorSpec × Desired) :=
  match pspec.custom with
  | none =>
    let custom : CustomPredictor :=
      { spec := { containers := [finalContainer cfg meta pspec] } }
    some ({ pspec with custom := some custom },
          { objectMeta := synthObjectMeta meta pspec, podSpec := custom.spec })
  | some cust =>
    match cust.spec.containers with
    | [] => none
    | _ :: rest =>
      let custom : CustomPredictor :=
        { spec := { cust.spec with containers := finalContainer cfg meta pspec :: rest } }
      some ({ pspec with custom := some custom },
            { objectMeta := synthObjectMeta meta pspec, podSpec := custom.spec })

/-- The external collaborators of one reconcile pass: the outcome of the
owner-reference call (`controllerutil.SetControllerReference`) and the
delegate child reconciler (`knative.NewKsvcReconciler(...).Reconcile`), which
receives the desired object metadata, the pod spec and the prior
per-component status and returns a status snapshot or an error. -/
structure Delegate where
  ownerRefErr : Option String
  run : ObjectMeta → PodSpec → ComponentStatusSpec → Except String ComponentStatusSpec

/-- Outcome of one `Predictor.Reconcile` pass on the embedding:
`indexOutOfBounds` models the Go runtime panic of the container-replacement
step; `failed` carries the partially mutated parent (the Go code mutates it
in place before the failure), the synthesized desired definition and the
propagated error; `ok` carries the mutated parent (status updated) and the
desired definition. -/
inductive Outcome where
  | indexOutOfBounds
  | failed (after : InferenceService) (des : Desired) (err : String)
  | ok (after : InferenceService) (des : Desired)

/-- The parent resource as left in memory by the pass, when it completed the
synthesis phase. -/
def Outcome.afterOf : Outcome → Option InferenceService
  | .indexOutOfBounds => none
  | .failed after _ _ => some after
  | .ok after _ => some after

/-- The synthesized desired child definition of the pass, when the synthesis
phase completed. -/
def Outcome.desiredOf : Outcome → Option Desired
  | .indexOutOfBounds => none
  | .failed _ des _ => some des
  | .ok _ des => some des

/-- The propagated error of the pass, if any. -/
def Outcome.errOf : Outcome → Option String
  | .indexOutOfBounds => none
  | .failed _ _ e => some e
  | .ok _ _ => none

/-- Embedding of `Predictor.Reconcile` (predictor.go:55-115): run the
synthesis phase, construct the delegate with the desired definition and the
prior per-component status, establish the owner reference (failure aborts the
pass), call the delegate (failure aborts the pass without touching status),
and on success overwrite the predictor status entry with the returned
snapshot. -/
def Predictor.Reconcile (d : Delegate) (cfg : InferenceServicesConfig)
    (isvc : InferenceService) : Outcome :=
  match synth cfg isvc.metadata isvc.predictor with
  | none => .indexOutOfBounds
  | some (pspec, des) =>
    let isvc1 : InferenceService := { isvc with predictor := pspec }
    match d.ownerRefErr with
    | some e => .failed isvc1 des e
    | none =>
      match d.run des.objectMeta des.podSpec
          (isvc.status.componentRead PredictorComponent) with
      | .error e => .failed isvc1 des e
      | .ok status =>
        .ok { isvc1 with
              status := isvc1.status.propagateStatus PredictorComponent status } des

/-! ## The embedded configmap reconciler (multimodelconfig) -/

/-- Model of `corev1.ConfigMap` restricted to identity and data. -/
structure ConfigMap where
  name : String := ""
  ns : String := ""
  data : KVMap String := []
deriving DecidableEq, Repr

/-- Model of `v1beta1.TrainedModel` restricted to the deletion marker read by
the configmap reconciler. -/
structure TrainedModel where
  name : String := ""
  deletionTimestamp : Option String := none
deriving DecidableEq, Repr

/-- Embedding of `ConfigMapReconciler.Reconcile` (multimodelconfig):
both the deletion branch and the upsert branch are empty in this snapshot
(TODO comments in the source), so control always falls through to
`c.client.Create(context.TODO(), desired)`, whose error is returned
unchanged.  The create call is modelled as a function parameter; the result
records the create calls made and the returned error. -/
def ConfigMapReconciler.Reconcile (create : ConfigMap → Option String)
    (desired : ConfigMap) (trainedModel : TrainedModel) :
    List ConfigMap × Option String :=
  match trainedModel.deletionTimestamp with
  | some _ =>
    -- A Trainedmodel is being deleted: removal from the multi-model
    -- configmap is unimplemented in this snapshot.
    ([desired], create desired)
  | none =>
    -- A Trainedmodel is created or updated: the add/update of the model
    -- entry is unimplemented in this snapshot.
    ([desired], create desired)

/-! ## Concrete fixtures used by witnesses and counterexamples -/

/-- A minimal deterministic container builder for concrete runs. -/
def getContainerTiny : ObjectMeta → ComponentExtensionSpec → InferenceServicesConfig → Container :=
  fun _ _ _ => {}

/-- A minimal implementation variant: no storage URI, default container. -/
def implTiny : PredictorImplementation :=
  { storageUri := none, getContainer := getContainerTiny }

/-- A minimal predictor spec: no custom override, no logger, no batcher. -/
def pspecTiny : PredictorSpec := { implementation := implTiny }

/-- A minimal parent resource. -/
def isvcTiny : InferenceService :=
  { metadata := { name := "s", ns := "d" }, predictor := pspecTiny, status := {} }

/-- The predictor spec after one synthesis pass on `pspecTiny`: the custom
variant has been auto-populated with a single-container template. -/
def pspecTinyAfter : PredictorSpec :=
  { pspecTiny with custom := some { spec := { containers := [{}] } } }

/-- The desired child definition synthesized from `isvcTiny`. -/
def desTiny : Desired :=
  { objectMeta :=
      { name := "s-predictor", ns := "d",
        labels := [(KServiceComponentLabel, PredictorComponent),
                   (InferenceServicePodLabelKey, "s")],
        annotations := [] }
    podSpec := { containers := [{}] } }

/-- A delegate whose reconcile call succeeds with a fixed status snapshot. -/
def delegateOk : Delegate :=
  { ownerRefErr := none,
    run := fun _ _ _ => .ok { url := some "http://svc.example", ready := true } }

/-- A delegate whose reconcile call fails with a fixed error. -/
def delegateFail : Delegate :=
  { ownerRefErr := none, run := fun _ _ _ => .error "conflict" }

/-- `isvcTiny` as mutated by a failed pass: custom populated, status untouched. -/
def isvcTinyAfterFail : InferenceService :=
  { isvcTiny with predictor := pspecTinyAfter }

/-- `isvcTiny` as mutated by a successful pass against `delegateOk`. -/
def isvcTinyAfterOk : InferenceService :=
  { metadata := isvcTiny.metadata
    predictor := pspecTinyAfter
    status := { components :=
      [(PredictorComponent, { url := some "http://svc.example", ready := true })] } }

/-- A parent resource whose custom override has an empty container list. -/
def isvcEmptyCustom : InferenceService :=
  { isvcTiny with predictor := { pspecTiny with custom := some { spec := {} } } }

/-! ## Helper lemmas about the synthesis phase -/

/-- Any successful synthesis leaves the custom variant populated, records the
final container list there, and reports the synthesized object metadata; when
the override was absent a fresh single-container template is created. -/
theorem synth_shape (cfg : InferenceServicesConfig) (meta : ObjectMeta)
    (pspec pspec1 : PredictorSpec) (des : Desired)
    (h : synth cfg meta pspec = some (pspec1, des)) :
    pspec1.custom.isSome = true ∧
    des.objectMeta = synthObjectMeta meta pspec ∧
    (pspec.custom = none →
      pspec1.custom = some { spec := { containers := [finalContainer cfg meta pspec] } }) := by
  cases hc : pspec.custom with
  | none =>
    simp only [synth, hc, Option.some.injEq, Prod.mk.injEq] at h
    obtain ⟨h1, h2⟩ := h
    subst h1; subst h2
    simp
  | some cust =>
    cases hcs : cust.spec.containers with
    | nil => simp [synth, hc, hcs] at h
    | cons c0 rest =>
      simp only [synth, hc, hcs, Option.some.injEq, Prod.mk.injEq] at h
      obtain ⟨h1, h2⟩ := h
      subst h1; subst h2
      simp [hc]

/-- Re-running the synthesis phase on its own output (with the same parent
metadata) is a fixed point: it returns the same updated spec and the same
desired definition. -/
theorem synth_stable (cfg : InferenceServicesConfig) (meta : ObjectMeta)
    (pspec pspec1 : PredictorSpec) (des : Desired)
    (h : synth cfg meta pspec = some (pspec1, des)) :
    synth cfg meta pspec1 = some (pspec1, des) := by
  cases hc : pspec.custom with
  | none =>
    simp only [synth, hc, Option.some.injEq, Prod.mk.injEq] at h
    obtain ⟨h1, h2⟩ := h
    subst h1; subst h2
    rfl
  | some cust =>
    cases hcs : cust.spec.containers with
    | nil => simp [synth, hc, hcs] at h
    | cons c0 rest =>
      simp only [synth, hc, hcs, Option.some.injEq, Prod.mk.injEq] at h
      obtain ⟨h1, h2⟩ := h
      subst h1; subst h2
      rfl

/-! ## Claim theorems -/

/-- C6: a container with zero declared ports leaves the port-patch operation
(`addLoggerContainerPort` / `addBatcherContainerPort`) with exactly one port
entry equal to the corresponding well-known port constant; a container that
already declares one or more ports is unchanged; applying the same patch a
second time is a no-op, and starting from zero ports the port count stays 1. -/
theorem portPatch_port_exclusivity (c : Container) :
    (c.ports = [] →
      (addLoggerContainerPort c).ports
          = [{ containerPort := atoi InferenceServiceDefaultLoggerPort }] ∧
      (addBatcherContainerPort c).ports
          = [{ containerPort := atoi InferenceServiceDefaultBatcherPort }] ∧
      (addLoggerContainerPort (addLoggerContainerPort c)).ports.length = 1 ∧
      (addBatcherContainerPort (addBatcherContainerPort c)).ports.length = 1) ∧
    (c.ports ≠ [] →
      addLoggerContainerPort c = c ∧ addBatcherContainerPort c = c) ∧
    addLoggerContainerPort (addLoggerContainerPort c) = addLoggerContainerPort c ∧
    addBatcherContainerPort (addBatcherContainerPort c) = addBatcherContainerPort c := by
  by_cases hc : c.ports = [] <;>
    simp [addLoggerContainerPort, addBatcherContainerPort, hc]

/-- C6 witness: the port patches evaluated on a portless container and on a
container that already declares a port. -/
theorem portPatch_port_exclusivity_witness :
    (addLoggerContainerPort { name := "c" }).ports
        = [{ containerPort := atoi InferenceServiceDefaultLoggerPort }] ∧
    (addLoggerContainerPort (addLoggerContainerPort { name := "c" })).ports.length = 1 ∧
    addBatcherContainerPort { name := "c2", ports := [{ containerPort := 5000 }] }
        = { name := "c2", ports := [{ containerPort := 5000 }] } :=
  ⟨((portPatch_port_exclusivity { name := "c" }).1 rfl).1,
   ((portPatch_port_exclusivity { name := "c" }).1 rfl).2.2.1,
   ((portPatch_port_exclusivity
      { name := "c2", ports := [{ containerPort := 5000 }] }).2.1 (by decide)).2⟩

/-- C9: for every desired configuration artifact and model declaration,
with or without a deletion marker, `ConfigMapReconciler.Reconcile` attempts
exactly one artifact-create call (on the desired artifact) and returns the
create call's error unchanged — so it returns a non-nil error exactly when
the create call fails, including an "already exists" failure. -/
theorem configMapReconcile_always_creates (create : ConfigMap → Option String)
    (desired : ConfigMap) (trainedModel : TrainedModel) :
    ConfigMapReconciler.Reconcile create desired trainedModel
      = ([desired], create desired) := by
  cases h : trainedModel.deletionTimestamp <;>
    simp [ConfigMapReconciler.Reconcile, h]

/-- C10: when the pre-existing custom pod-template override has an empty
container list, `Predictor.Reconcile` hits the out-of-bounds index in
`Custom.Spec.Containers[0] = *container` — the error branch of the
embedding — instead of building a new single-container template. -/
theorem reconcile_empty_override_out_of_bounds (d : Delegate)
    (cfg : InferenceServicesConfig) (isvc : InferenceService) (cust : CustomPredictor)
    (h1 : isvc.predictor.custom = some cust) (h2 : cust.spec.containers = []) :
    Predictor.Reconcile d cfg isvc = .indexOutOfBounds := by
  simp [Predictor.Reconcile, synth, h1, h2]

/-- C10 witness: the embedding evaluated on a concrete parent whose custom
override has an empty container list. -/
theorem reconcile_empty_override_out_of_bounds_witness :
    Predictor.Reconcile delegateOk {} isvcEmptyCustom = .indexOutOfBounds :=
  reconcile_empty_override_out_of_bounds delegateOk {} isvcEmptyCustom
    { spec := {} } rfl rfl

/-- C4 counterexample: the claim asserts the output map "contains no sink-URL
key" whenever the logger is present with mode "request" and no sink URL, for
*every* annotation map — but `addLoggerAnnotations` never removes keys, so an
input map that already carries the sink-URL key keeps it. -/
theorem addLoggerAnnotations_keeps_stale_sink_url :
    KVMap.get (addLoggerAnnotations (some { url := none, mode := "request" })
        [(LoggerSinkUrlInternalAnnotationKey, "http://stale")]).2
      LoggerSinkUrlInternalAnnotationKey = some "http://stale" ∧
    KVMap.get (addLoggerAnnotations (some { url := none, mode := "request" })
        [(LoggerSinkUrlInternalAnnotationKey, "http://stale")]).2
      LoggerSinkUrlInternalAnnotationKey ≠ none := by
  constructor
  · rfl
  · decide

/-- C4 (amended): for every annotation map *that does not already carry the
sink-URL key* and logger sub-specification with delivery mode "request" and
no sink URL, `addLoggerAnnotations` produces a map containing
logging-enabled="true" and logging-mode="request" and no sink-URL key; and
for every input, the function returns true exactly when the logger
sub-specification is present. -/
theorem addLoggerAnnotations_request_no_url (lg : LoggerSpec) (m : KVMap String)
    (hmode : lg.mode = "request") (hurl : lg.url = none)
    (hin : KVMap.get m LoggerSinkUrlInternalAnnotationKey = none) :
    KVMap.get (addLoggerAnnotations (some lg) m).2 LoggerInternalAnnotationKey
        = some "true" ∧
    KVMap.get (addLoggerAnnotations (some lg) m).2 LoggerModeInternalAnnotationKey
        = some "request" ∧
    KVMap.get (addLoggerAnnotations (some lg) m).2 LoggerSinkUrlInternalAnnotationKey
        = none ∧
    (∀ (lgOpt : Option LoggerSpec) (m' : KVMap String),
      (addLoggerAnnotations lgOpt m').1 = lgOpt.isSome) := by
  refine ⟨?_, ?_, ?_, ?_⟩
  · simp [addLoggerAnnotations, hurl, hmode, KVMap.get_set,
      LoggerInternalAnnotationKey, LoggerModeInternalAnnotationKey]
  · simp [addLoggerAnnotations, hurl, hmode, KVMap.get_set]
  · simp [addLoggerAnnotations, hurl, KVMap.get_set,
      LoggerSinkUrlInternalAnnotationKey, LoggerInternalAnnotationKey,
      LoggerModeInternalAnnotationKey]
    exact hin
  · intro lgOpt m'
    cases lgOpt <;> simp [addLoggerAnnotations]

/-- C4 witness: the amended theorem evaluated on a concrete logger
specification and a concrete map without the sink-URL key. -/
theorem addLoggerAnnotations_request_no_url_witness :
    KVMap.get (addLoggerAnnotations (some { url := none, mode := "request" })
        [("a", "b")]).2 LoggerInternalAnnotationKey = some "true" ∧
    KVMap.get (addLoggerAnnotations (some { url := none, mode := "request" })
        [("a", "b")]).2 LoggerModeInternalAnnotationKey = some "request" ∧
    KVMap.get (addLoggerAnnotations (some { url := none, mode := "request" })
        [("a", "b")]).2 LoggerSinkUrlInternalAnnotationKey = none ∧
    (addLoggerAnnotations (none : Option LoggerSpec) []).1 = false :=
  have h := addLoggerAnnotations_request_no_url
    { url := none, mode := "request" } [("a", "b")] rfl rfl (by decide)
  ⟨h.1, h.2.1, h.2.2.1, h.2.2.2 none []⟩

/-- C5: for every annotation map and present batcher sub-specification,
`addBatcherAnnotations` sets batching-enabled="true"; each present integer
among max-batch-size, max-latency and timeout is serialized as a decimal
string under the corresponding key; when all three are absent the only key
whose value can change is batching-enabled; and the function returns true
exactly when the batcher is present. -/
theorem addBatcherAnnotations_encoding (b : Batcher) (m : KVMap String) :
    (addBatcherAnnotations (some b) m).1 = true ∧
    KVMap.get (addBatcherAnnotations (some b) m).2 BatcherInternalAnnotationKey
        = some "true" ∧
    (∀ n, b.maxBatchSize = some n →
      KVMap.get (addBatcherAnnotations (some b) m).2
        BatcherMaxBatchSizeInternalAnnotationKey = some (toString n)) ∧
    (∀ n, b.maxLatency = some n →
      KVMap.get (addBatcherAnnotations (some b) m).2
        BatcherMaxLatencyInternalAnnotationKey = some (toString n)) ∧
    (∀ n, b.timeout = some n →
      KVMap.get (addBatcherAnnotations (some b) m).2
        BatcherTimeoutInternalAnnotationKey = some (toString n)) ∧
    (b.maxBatchSize = none → b.maxLatency = none → b.timeout = none →
      ∀ k, k ≠ BatcherInternalAnnotationKey →
        KVMap.get (addBatcherAnnotations (some b) m).2 k = KVMap.get m k) ∧
    (∀ (m' : KVMap String), (addBatcherAnnotations (none : Option Batcher) m').1 = false) := by
  obtain ⟨mb, ml, mt⟩ := b
  cases mb <;> cases ml <;> cases mt <;>
    simp [addBatcherAnnotations, KVMap.get_set, BatcherInternalAnnotationKey,
      BatcherMaxBatchSizeInternalAnnotationKey, BatcherMaxLatencyInternalAnnotationKey,
      BatcherTimeoutInternalAnnotationKey]
  exact fun k hk hk2 => absurd hk2 hk

/-- Keys other than the three logger keys are untouched by
`addLoggerAnnotations`. -/
theorem get_addLoggerAnnotations_other (lg : Option LoggerSpec) (m : KVMap String)
    (k : String) (h1 : k ≠ LoggerInternalAnnotationKey)
    (h2 : k ≠ LoggerSinkUrlInternalAnnotationKey)
    (h3 : k ≠ LoggerModeInternalAnnotationKey) :
    KVMap.get (addLoggerAnnotations lg m).2 k = KVMap.get m k := by
  cases lg with
  | none => rfl
  | some l =>
    cases hu : l.url <;> simp [addLoggerAnnotations, hu, KVMap.get_set, h1, h2, h3]

/-- Keys other than the four batcher keys are untouched by
`addBatcherAnnotations`. -/
theorem get_addBatcherAnnotations_other (b : Option Batcher) (m : KVMap String)
    (k : String) (h1 : k ≠ BatcherInternalAnnotationKey)
    (h2 : k ≠ BatcherMaxBatchSizeInternalAnnotationKey)
    (h3 : k ≠ BatcherMaxLatencyInternalAnnotationKey)
    (h4 : k ≠ BatcherTimeoutInternalAnnotationKey) :
    KVMap.get (addBatcherAnnotations b m).2 k = KVMap.get m k := by
  cases b with
  | none => rfl
  | some bb =>
    obtain ⟨mb, ml, mt⟩ := bb
    cases mb <;> cases ml <;> cases mt <;>
      simp [addBatcherAnnotations, KVMap.get_set, h1, h2, h3, h4]

/-- Keys other than the storage-source key are untouched by the
storage-annotation step. -/
theorem get_baseAnnotations_other (meta : ObjectMeta) (pspec : PredictorSpec)
    (k : String) (h1 : k ≠ StorageUriAnnotationKey) :
    KVMap.get (baseAnnotations meta pspec) k = KVMap.get (filteredAnnotations meta) k := by
  cases hs : pspec.GetImplementation.storageUri <;>
    simp [baseAnnotations, hs, KVMap.get_set, h1]

/-- The synthesized annotation map, looked up at any key the synthesizer does
not itself write: disallow-listed keys are dropped, every other key keeps the
parent's value. -/
theorem get_synthAnnotations_not_injected (meta : ObjectMeta) (pspec : PredictorSpec)
    (K : String) (hK : K ∉ InjectedAnnotationKeys) :
    KVMap.get (synthAnnotations meta pspec) K =
      if ServiceAnnotationDisallowedList.contains K then none
      else KVMap.get meta.annotations K := by
  simp only [InjectedAnnotationKeys, List.mem_cons, List.mem_singleton, not_or,
    List.not_mem_nil, or_false] at hK
  obtain ⟨h1, h2, h3, h4, h5, h6, h7, h8⟩ := hK
  unfold synthAnnotations batcherStep loggerStep
  rw [get_addBatcherAnnotations_other _ _ _ h5 h6 h7 h8,
      get_addLoggerAnnotations_other _ _ _ h2 h3 h4,
      get_baseAnnotations_other _ _ _ h1]
  unfold filteredAnnotations
  rw [KVMap.get_filterKeys]
  cases hc : ServiceAnnotationDisallowedList.contains K <;> simp [hc]

/-- C3 counterexample: the claim asserts every key outside the disallow-list
is retained with its value, but the synthesizer overwrites the logger
directive key: a parent carrying the logging-enabled key with value "false"
and a present logger ends up with "true" in the synthesized map. -/
theorem synth_annotation_filtering_cex :
    LoggerInternalAnnotationKey ∉ ServiceAnnotationDisallowedList ∧
    KVMap.get ([(LoggerInternalAnnotationKey, "false")] : KVMap String)
      LoggerInternalAnnotationKey = some "false" ∧
    (synth {} { name := "s", ns := "d", annotations := [(LoggerInternalAnnotationKey, "false")] }
        { logger := some { url := none, mode := "request" }, implementation := implTiny }).map
      (fun r => KVMap.get r.2.objectMeta.annotations LoggerInternalAnnotationKey)
      = some (some "true") := by
  refine ⟨by decide, by decide, rfl⟩

/-- C3 (amended): every key of the disallow-list is absent from the
annotation map synthesized by `Predictor.Reconcile`, regardless of its
presence in the parent's input annotations; and every key not in the
disallow-list *and not among the storage/logger/batcher directive keys the
synthesizer itself writes* is retained with its parent value (directive keys
may be overwritten by the injection steps after filtering). -/
theorem synth_annotation_filtering (cfg : InferenceServicesConfig) (meta : ObjectMeta)
    (pspec pspec1 : PredictorSpec) (des : Desired)
    (h : synth cfg meta pspec = some (pspec1, des)) :
    (∀ K, K ∈ ServiceAnnotationDisallowedList →
      KVMap.get des.objectMeta.annotations K = none) ∧
    (∀ K, K ∉ ServiceAnnotationDisallowedList → K ∉ InjectedAnnotationKeys →
      KVMap.get des.objectMeta.annotations K = KVMap.get meta.annotations K) := by
  have hm : des.objectMeta = synthObjectMeta meta pspec := (synth_shape _ _ _ _ _ h).2.1
  have hann : des.objectMeta.annotations = synthAnnotations meta pspec := by
    rw [hm]; rfl
  rw [hann]
  constructor
  · intro K hK
    simp only [ServiceAnnotationDisallowedList, List.mem_cons, List.mem_singleton,
      List.not_mem_nil, or_false] at hK
    rcases hK with h1 | h1 | h1 <;> subst h1 <;>
      rw [get_synthAnnotations_not_injected meta pspec _ (by decide)] <;> rfl
  · intro K hK hNI
    rw [get_synthAnnotations_not_injected meta pspec K hNI]
    have hc : ServiceAnnotationDisallowedList.contains K = false := by
      cases hcc : ServiceAnnotationDisallowedList.contains K with
      | false => rfl
      | true => exact absurd (List.elem_iff.mp hcc) hK
    rw [hc]
    simp

/-- C3 witness: the amended theorem evaluated on a parent carrying one
disallow-listed annotation and one ordinary annotation. -/
theorem synth_annotation_filtering_witness :
    KVMap.get
      ({ objectMeta :=
          { name := "s-predictor", ns := "d",
            labels := [(KServiceComponentLabel, PredictorComponent),
                       (InferenceServicePodLabelKey, "s")],
            annotations := [("a", "b")] }
         podSpec := { containers := [{}] } } : Desired).objectMeta.annotations
      "kubectl.kubernetes.io/last-applied-configuration" = none ∧
    KVMap.get
      ({ objectMeta :=
          { name := "s-predictor", ns := "d",
            labels := [(KServiceComponentLabel, PredictorComponent),
                       (InferenceServicePodLabelKey, "s")],
            annotations := [("a", "b")] }
         podSpec := { containers := [{}] } } : Desired).objectMeta.annotations "a"
      = KVMap.get
          ({ name := "s", ns := "d",
             annotations := [("kubectl.kubernetes.io/last-applied-configuration", "x"),
                             ("a", "b")] } : ObjectMeta).annotations "a" :=
  have h := synth_annotation_filtering {}
    { name := "s", ns := "d",
      annotations := [("kubectl.kubernetes.io/last-applied-configuration", "x"), ("a", "b")] }
    pspecTiny pspecTinyAfter
    { objectMeta :=
        { name := "s-predictor", ns := "d",
          labels := [(KServiceComponentLabel, PredictorComponent),
                     (InferenceServicePodLabelKey, "s")],
          annotations := [("a", "b")] }
      podSpec := { containers := [{}] } } rfl
  ⟨h.1 "kubectl.kubernetes.io/last-applied-configuration" (by decide),
   h.2 "a" (by decide) (by decide)⟩

/-- C7: when the parent already carries a custom pod-template override with a
leading container, synthesis replaces only the first container (with the
freshly built container, port-patched per the enabled sidecar features) and
preserves the remaining containers and every other pod-level field (volumes,
service account) verbatim, both in the stored override and in the desired
pod spec handed to the delegate. -/
theorem synth_preserves_custom_override (cfg : InferenceServicesConfig)
    (meta : ObjectMeta) (pspec : PredictorSpec) (cust : CustomPredictor)
    (c0 : Container) (rest : List Container)
    (h1 : pspec.custom = some cust) (h2 : cust.spec.containers = c0 :: rest) :
    synth cfg meta pspec = some
      ({ pspec with
          custom := some { spec :=
            { cust.spec with containers := finalContainer cfg meta pspec :: rest } } },
       { objectMeta := synthObjectMeta meta pspec,
         podSpec :=
           { cust.spec with containers := finalContainer cfg meta pspec :: rest } }) := by
  simp [synth, h1, h2]

/-- C7 witness: synthesis on a parent whose override has two containers and
one volume — container 0 is replaced, container 1 and the volume survive. -/
theorem synth_preserves_custom_override_witness :
    synth {} { name := "s", ns := "d" }
      { custom := some { spec :=
          { containers := [{ name := "main" }, { name := "aux" }],
            volumes := ["v"], serviceAccountName := "sa" } },
        implementation := implTiny }
      = some
      ({ custom := some { spec :=
            { containers :=
                [finalContainer {} { name := "s", ns := "d" }
                  { custom := some { spec :=
                      { containers := [{ name := "main" }, { name := "aux" }],
                        volumes := ["v"], serviceAccountName := "sa" } },
                    implementation := implTiny },
                 { name := "aux" }],
              volumes := ["v"], serviceAccountName := "sa" } },
          implementation := implTiny },
       { objectMeta := synthObjectMeta { name := "s", ns := "d" }
           { custom := some { spec :=
               { containers := [{ name := "main" }, { name := "aux" }],
                 volumes := ["v"], serviceAccountName := "sa" } },
             implementation := implTiny },
         podSpec :=
           { containers :=
               [finalContainer {} { name := "s", ns := "d" }
                 { custom := some { spec :=
                     { containers := [{ name := "main" }, { name := "aux" }],
                       volumes := ["v"], serviceAccountName := "sa" } },
                   implementation := implTiny },
                { name := "aux" }],
             volumes := ["v"], serviceAccountName := "sa" } }) :=
  synth_preserves_custom_override {} { name := "s", ns := "d" }
    { custom := some { spec :=
        { containers := [{ name := "main" }, { name := "aux" }],
          volumes := ["v"], serviceAccountName := "sa" } },
      implementation := implTiny }
    { spec := { containers := [{ name := "main" }, { name := "aux" }],
                volumes := ["v"], serviceAccountName := "sa" } }
    { name := "main" } [{ name := "aux" }] rfl rfl

/-- C8: after the synthesis phase of any `Predictor.Reconcile` invocation
that did not panic — whether the pass later succeeds or fails — the parent's
predictor Custom variant is populated: if it was absent it has been created
with a single-container pod template, and if it was present it remains
present. -/
theorem reconcile_populates_custom (d : Delegate) (cfg : InferenceServicesConfig)
    (isvc isvc1 : InferenceService)
    (h : (Predictor.Reconcile d cfg isvc).afterOf = some isvc1) :
    isvc1.predictor.custom.isSome = true ∧
    (isvc.predictor.custom = none →
      isvc1.predictor.custom
        = some { spec := { containers := [finalContainer cfg isvc.metadata isvc.predictor] } }) ∧
    (isvc.predictor.custom.isSome = true → isvc1.predictor.custom.isSome = true) := by
  cases hs : synth cfg isvc.metadata isvc.predictor with
  | none => simp [Predictor.Reconcile, hs, Outcome.afterOf] at h
  | some r =>
    obtain ⟨pspec1, des⟩ := r
    have hshape := synth_shape cfg isvc.metadata isvc.predictor pspec1 des hs
    have hpred : isvc1.predictor = pspec1 := by
      simp only [Predictor.Reconcile, hs] at h
      cases ho : d.ownerRefErr with
      | some e =>
        simp only [ho, Outcome.afterOf, Option.some.injEq] at h
        subst h; rfl
      | none =>
        cases hr : d.run des.objectMeta des.podSpec
            (isvc.status.componentRead PredictorComponent) with
        | error e =>
          simp only [ho, hr, Outcome.afterOf, Option.some.injEq] at h
          subst h; rfl
        | ok st =>
          simp only [ho, hr, Outcome.afterOf, Option.some.injEq] at h
          subst h; rfl
    rw [hpred]
    exact ⟨hshape.1, hshape.2.2, fun _ => hshape.1⟩

/-- C8 witness: a successful pass on a parent without a custom override
leaves the custom variant populated with a single-container template. -/
theorem reconcile_populates_custom_witness :
    isvcTinyAfterOk.predictor.custom.isSome = true ∧
    isvcTinyAfterOk.predictor.custom
      = some { spec := { containers := [finalContainer {} isvcTiny.metadata isvcTiny.predictor] } } :=
  have h := reconcile_populates_custom delegateOk {} isvcTiny isvcTinyAfterOk rfl
  ⟨h.1, h.2.1 rfl⟩

/-- C2: on any failing pass (owner-reference establishment or delegate
reconcile), `Predictor.Reconcile` propagates exactly the failing call's error
and leaves the parent's status — in particular the predictor's per-component
entry — unchanged from its prior value; only on delegate success is the
per-component entry overwritten with the delegate's returned snapshot. -/
theorem reconcile_status_isolation (d : Delegate) (cfg : InferenceServicesConfig)
    (isvc : InferenceService) :
    (∀ isvc1 des e, Predictor.Reconcile d cfg isvc = .failed isvc1 des e →
      isvc1.status = isvc.status ∧
      (d.ownerRefErr = some e ∨
        (d.ownerRefErr = none ∧
          d.run des.objectMeta des.podSpec (isvc.status.componentRead PredictorComponent)
            = .error e))) ∧
    (∀ isvc1 des, Predictor.Reconcile d cfg isvc = .ok isvc1 des →
      ∃ snapshot,
        d.run des.objectMeta des.podSpec (isvc.status.componentRead PredictorComponent)
          = .ok snapshot ∧
        isvc1.status = isvc.status.propagateStatus PredictorComponent snapshot ∧
        KVMap.get isvc1.status.components PredictorComponent = some snapshot) := by
  cases hs : synth cfg isvc.metadata isvc.predictor with
  | none =>
    constructor
    · intro isvc1 des e hr; simp [Predictor.Reconcile, hs] at hr
    · intro isvc1 des hr; simp [Predictor.Reconcile, hs] at hr
  | some r =>
    obtain ⟨pspec1, des0⟩ := r
    constructor
    · intro isvc1 des e hr
      simp only [Predictor.Reconcile, hs] at hr
      cases ho : d.ownerRefErr with
      | some e0 =>
        simp only [ho, Outcome.failed.injEq] at hr
        obtain ⟨hA, hdes, he⟩ := hr
        subst hA; subst hdes; subst he
        exact ⟨rfl, Or.inl rfl⟩
      | none =>
        cases hrun : d.run des0.objectMeta des0.podSpec
            (isvc.status.componentRead PredictorComponent) with
        | error e0 =>
          simp only [ho, hrun, Outcome.failed.injEq] at hr
          obtain ⟨hA, hdes, he⟩ := hr
          subst hA; subst hdes; subst he
          exact ⟨rfl, Or.inr ⟨rfl, hrun⟩⟩
        | ok st => simp only [ho, hrun] at hr; exact absurd hr (by simp)
    · intro isvc1 des hr
      simp only [Predictor.Reconcile, hs] at hr
      cases ho : d.ownerRefErr with
      | some e0 => simp only [ho] at hr; exact absurd hr (by simp)
      | none =>
        cases hrun : d.run des0.objectMeta des0.podSpec
            (isvc.status.componentRead PredictorComponent) with
        | error e0 => simp only [ho, hrun] at hr; exact absurd hr (by simp)
        | ok st =>
          simp only [ho, hrun, Outcome.ok.injEq] at hr
          obtain ⟨hA, hdes⟩ := hr
          subst hA; subst hdes
          exact ⟨st, hrun, rfl,
            by simp [InferenceServiceStatus.propagateStatus, KVMap.get_set]⟩

/-- C2 witness: a pass whose delegate call fails with "conflict" leaves the
status untouched and surfaces exactly that error. -/
theorem reconcile_status_isolation_witness :
    isvcTinyAfterFail.status = isvcTiny.status ∧
    (delegateFail.ownerRefErr = some "conflict" ∨
      (delegateFail.ownerRefErr = none ∧
        delegateFail.run desTiny.objectMeta desTiny.podSpec
          (isvcTiny.status.componentRead PredictorComponent) = .error "conflict")) :=
  (reconcile_status_isolation delegateFail {} isvcTiny).1
    isvcTinyAfterFail desTiny "conflict" rfl

/-- A pass that completed the synthesis phase leaves the parent metadata
unchanged, and the parent's stored predictor spec together with the reported
desired definition are exactly the synthesis output. -/
theorem reconcile_shape (d : Delegate) (cfg : InferenceServicesConfig)
    (isvc isvc1 : InferenceService) (des : Desired)
    (h1 : (Predictor.Reconcile d cfg isvc).afterOf = some isvc1)
    (h2 : (Predictor.Reconcile d cfg isvc).desiredOf = some des) :
    isvc1.metadata = isvc.metadata ∧
    synth cfg isvc.metadata isvc.predictor = some (isvc1.predictor, des) := by
  cases hs : synth cfg isvc.metadata isvc.predictor with
  | none => simp [Predictor.Reconcile, hs, Outcome.afterOf] at h1
  | some r =>
    obtain ⟨pspec1, des0⟩ := r
    simp only [Predictor.Reconcile, hs] at h1 h2
    cases ho : d.ownerRefErr with
    | some e =>
      simp only [ho, Outcome.afterOf, Outcome.desiredOf, Option.some.injEq] at h1 h2
      subst h1; subst h2
      exact ⟨rfl, rfl⟩
    | none =>
      cases hrun : d.run des0.objectMeta des0.podSpec
          (isvc.status.componentRead PredictorComponent) with
      | error e =>
        simp only [ho, hrun, Outcome.afterOf, Outcome.desiredOf, Option.some.injEq] at h1 h2
        subst h1; subst h2
        exact ⟨rfl, rfl⟩
      | ok st =>
        simp only [ho, hrun, Outcome.afterOf, Outcome.desiredOf, Option.some.injEq] at h1 h2
        subst h1; subst h2
        exact ⟨rfl, rfl⟩

/-- C1: reconciling twice in a row with no external change synthesizes the
identical desired definition — object metadata (with its annotation map) and
pod spec (with its container definition) — on both passes: whatever parent
the first pass left in memory, the second pass reports the same desired
definition. -/
theorem reconcile_idempotent (d : Delegate) (cfg : InferenceServicesConfig)
    (isvc isvc1 : InferenceService) (des1 : Desired)
    (h1 : (Predictor.Reconcile d cfg isvc).afterOf = some isvc1)
    (h2 : (Predictor.Reconcile d cfg isvc).desiredOf = some des1) :
    (Predictor.Reconcile d cfg isvc1).desiredOf = some des1 := by
  obtain ⟨hm, hs⟩ := reconcile_shape d cfg isvc isvc1 des1 h1 h2
  have hstable := synth_stable cfg isvc.metadata isvc.predictor isvc1.predictor des1 hs
  simp only [Predictor.Reconcile, hm, hstable]
  cases ho : d.ownerRefErr with
  | some e => rfl
  | none =>
    cases hrun : d.run des1.objectMeta des1.podSpec
        (isvc1.status.componentRead PredictorComponent) with
    | error e => rfl
    | ok st => rfl

/-- C1 witness: a second pass on the parent left by a successful first pass
reports the identical desired definition. -/
theorem reconcile_idempotent_witness :
    (Predictor.Reconcile delegateOk {} isvcTinyAfterOk).desiredOf = some desTiny :=
  reconcile_idempotent delegateOk {} isvcTiny isvcTinyAfterOk desTiny rfl rfl

/-- C5 witness: the encoding evaluated at max-batch-size=32, max-latency=100,
timeout=60, and the frame property evaluated on an all-absent batcher. -/
theorem addBatcherAnnotations_encoding_witness :
    KVMap.get (addBatcherAnnotations
        (some { maxBatchSize := some 32, maxLatency := some 100, timeout := some 60 }) []).2
      BatcherMaxBatchSizeInternalAnnotationKey = some "32" ∧
    KVMap.get (addBatcherAnnotations
        (some { maxBatchSize := some 32, maxLatency := some 100, timeout := some 60 }) []).2
      BatcherMaxLatencyInternalAnnotationKey = some "100" ∧
    KVMap.get (addBatcherAnnotations
        (some { maxBatchSize := some 32, maxLatency := some 100, timeout := some 60 }) []).2
      BatcherTimeoutInternalAnnotationKey = some "60" ∧
    KVMap.get (addBatcherAnnotations (some { }) [("a", "b")]).2 "a" = some "b" ∧
    KVMap.get (addBatcherAnnotations (some { }) [("a", "b")]).2
      BatcherInternalAnnotationKey = some "true" :=
  have h1 := addBatcherAnnotations_encoding
    { maxBatchSize := some 32, maxLatency := some 100, timeout := some 60 } []
  have h2 := addBatcherAnnotations_encoding { } [("a", "b")]
  ⟨h1.2.2.1 32 rfl, h1.2.2.2.1 100 rfl, h1.2.2.2.2.1 60 rfl,
   h2.2.2.2.2.2.1 rfl rfl rfl "a" (by decide), h2.2.1⟩

end KFServing
